import Mathlib

/-!
Verification of the FreeCash invoice/installment, subscription, import and
backup logic against its natural-language specification.

The definitions below are a shallow embedding of the Python source:

* `core/views/cartoes.py`  — installment split, `calcular_vencimento_fatura`,
  `add_months`;
* `core/services/fatura_service.py` — `atualizar_valor_fatura`,
  `pagar_fatura`, `desfazer_pagamento_fatura`;
* `core/services/assinatura_service.py` — `gerar_conta_da_assinatura`;
* `core/services/extrato_parser.py` — `_extrair_linha`, `parse_pdf_generico`;
* `core/services/secure_backup.py` — `encrypt_data`, `decrypt_data`;
* `core/services/importar_unificado.py` — `importar_planilha_unificada`;
* `core/services/import_planilha.py` — keyword signature of
  `upsert_conta_legado` and its call sites.

Monetary amounts are integer cents; dates are explicit year/month/day
records with the Gregorian month lengths of Python's `calendar.monthrange`.
-/

namespace FreeCash

/-- A calendar date, as Python's `datetime.date` (year, month, day). -/
structure DateT where
  ano : Nat
  mes : Nat
  dia : Nat
deriving DecidableEq, Repr

/-- Gregorian leap-year test, as `calendar.isleap`. -/
def ehBissexto (ano : Nat) : Bool :=
  ano % 4 == 0 && (ano % 100 != 0 || ano % 400 == 0)

/-- Number of days in a month, as `calendar.monthrange(ano, mes)[1]`
(only ever applied to months 1..12). -/
def monthrange (ano mes : Nat) : Nat :=
  if mes = 2 then (if ehBissexto ano then 29 else 28)
  else if mes = 4 ∨ mes = 6 ∨ mes = 9 ∨ mes = 11 then 30
  else 31

/-- `add_months` from `core/views/cartoes.py` (also the effect of
`dateutil.relativedelta(months=n)` for `n ≥ 0`): advance by whole months,
clamping the day to the last day of the target month. -/
def add_months (d : DateT) (months : Nat) : DateT :=
  let y := d.ano + (d.mes - 1 + months) / 12
  let m := (d.mes - 1 + months) % 12 + 1
  let lastDay := monthrange y m
  ⟨y, m, min d.dia lastDay⟩

/-- `calcular_vencimento_fatura` from `core/views/cartoes.py`: which invoice
a card purchase falls on.  Step 1 picks the closing cycle (this month if the
purchase day is on or before the closing day, else the next month); step 2
picks the due month (same month as the closing cycle when the due day is
after the closing day, else the following month); the due day is clamped to
the length of the due month. -/
def calcular_vencimento_fatura (dataCompra : DateT) (diaFechamento diaVencimento : Nat) :
    DateT :=
  let ano := dataCompra.ano
  let mes := dataCompra.mes
  let dia := dataCompra.dia
  let fechamento : Nat × Nat :=
    if dia ≤ diaFechamento then (ano, mes)
    else if mes = 12 then (ano + 1, 1) else (ano, mes + 1)
  let vencimento : Nat × Nat :=
    if diaVencimento > diaFechamento then fechamento
    else if fechamento.2 = 12 then (fechamento.1 + 1, 1) else (fechamento.1, fechamento.2 + 1)
  let ultimoDiaMes := monthrange vencimento.1 vencimento.2
  ⟨vencimento.1, vencimento.2, min diaVencimento ultimoDiaMes⟩

/-- The month following `(ano, mes)`, written uniformly through the absolute
month count so that it matches the spec's phrase "the following month". -/
def proximoMes (ano mes : Nat) : Nat × Nat :=
  ((ano * 12 + mes) / 12, (ano * 12 + mes) % 12 + 1)

/-- The due-date rule exactly as the specification words it: the closing
cycle is the purchase's own month when the purchase day is at most the
closing day, else the following month; the due month is the closing-cycle
month when the due day exceeds the closing day, else the month after it;
the day is the due day clamped to the last day of the due month. -/
def vencimento_fatura_spec (dataCompra : DateT) (diaFechamento diaVencimento : Nat) :
    DateT :=
  let fech :=
    if dataCompra.dia ≤ diaFechamento then (dataCompra.ano, dataCompra.mes)
    else proximoMes dataCompra.ano dataCompra.mes
  let venc := if diaVencimento > diaFechamento then fech else proximoMes fech.1 fech.2
  ⟨venc.1, venc.2, min diaVencimento (monthrange venc.1 venc.2)⟩

theorem proximoMes_eq (ano mes : Nat) (h1 : 1 ≤ mes) (h12 : mes ≤ 12) :
    proximoMes ano mes = if mes = 12 then (ano + 1, 1) else (ano, mes + 1) := by
  unfold proximoMes
  split <;> simp only [Prod.mk.injEq] <;> omega

/-- The installment split from `CartaoDespesaCreateView.post` in
`core/views/cartoes.py`: `base = total_cents // n`, `resto = total_cents % n`,
and installment `i` (1-indexed, built in order `i = 1, …, n`) receives
`base + 1` cent when `i ≤ resto` and `base` otherwise. -/
def split_purchase (totalCents n : Nat) : List Nat :=
  let base := totalCents / n
  let resto := totalCents % n
  (List.range n).map (fun k => base + if k + 1 ≤ resto then 1 else 0)

theorem split_purchase_sum_aux (base resto m : Nat) :
    ((List.range m).map (fun k => base + if k + 1 ≤ resto then 1 else 0)).sum =
      m * base + min m resto := by
  induction m with
  | zero => simp
  | succ m ih =>
    rw [List.range_succ, List.map_append, List.sum_append]
    simp only [List.map_cons, List.map_nil, List.sum_cons, List.sum_nil, ih,
      Nat.succ_mul, Nat.min_def]
    split <;> split <;> omega

theorem split_purchase_count_aux (base resto m : Nat) :
    ((List.range m).map (fun k => base + if k + 1 ≤ resto then 1 else 0)).countP
      (fun x => x == base + 1) = min m resto := by
  induction m with
  | zero => simp
  | succ m ih =>
    rw [List.range_succ, List.map_append, List.countP_append]
    simp only [List.map_cons, List.map_nil, List.countP_cons, List.countP_nil, ih]
    split <;> simp <;> omega

/-- C1: for every total (in cents) and every installment count `2 ≤ n ≤ 24`,
the installment split creates exactly `n` entries summing cent-exactly to the
total; each entry is `⌊total/n⌋` or one cent more, installment `k+1`
(1-indexed index `k+1`) gets the extra cent exactly when `k+1 ≤ total % n`,
and exactly `total % n` entries receive the extra cent. -/
theorem c1_split_purchase (totalCents n : Nat) (h2 : 2 ≤ n) (h24 : n ≤ 24) :
    (split_purchase totalCents n).length = n ∧
    (split_purchase totalCents n).sum = totalCents ∧
    (∀ k, k < n →
      (split_purchase totalCents n).getD k 0 =
        totalCents / n + (if k + 1 ≤ totalCents % n then 1 else 0)) ∧
    (∀ k, k < n →
      (split_purchase totalCents n).getD k 0 = totalCents / n ∨
      (split_purchase totalCents n).getD k 0 = totalCents / n + 1) ∧
    (split_purchase totalCents n).countP (fun x => x == totalCents / n + 1) =
      totalCents % n := by
  have hn : 0 < n := by omega
  have hmod : totalCents % n < n := Nat.mod_lt _ hn
  refine ⟨?_, ?_, ?_, ?_, ?_⟩
  · simp [split_purchase]
  · simp only [split_purchase]
    rw [split_purchase_sum_aux, Nat.min_eq_right (Nat.le_of_lt hmod)]
    exact Nat.div_add_mod totalCents n
  · intro k hk
    simp [split_purchase, List.getD_eq_getElem?_getD, List.getElem?_map,
      List.getElem?_range hk]
  · intro k hk
    simp only [split_purchase, List.getD_eq_getElem?_getD, List.getElem?_map,
      List.getElem?_range hk, Option.map_some, Option.getD_some]
    by_cases hkk : k + 1 ≤ totalCents % n <;> simp [hkk]
  · simp only [split_purchase]
    rw [split_purchase_count_aux, Nat.min_eq_right (Nat.le_of_lt hmod)]

/-- Witness for C1 at total 1003 cents split in 5 installments. -/
theorem c1_split_purchase_witness :
    (2 ≤ 5 ∧ 5 ≤ 24) ∧
    ((split_purchase 1003 5).length = 5 ∧
      (split_purchase 1003 5).sum = 1003 ∧
      (∀ k, k < 5 →
        (split_purchase 1003 5).getD k 0 =
          1003 / 5 + (if k + 1 ≤ 1003 % 5 then 1 else 0)) ∧
      (∀ k, k < 5 →
        (split_purchase 1003 5).getD k 0 = 1003 / 5 ∨
        (split_purchase 1003 5).getD k 0 = 1003 / 5 + 1) ∧
      (split_purchase 1003 5).countP (fun x => x == 1003 / 5 + 1) = 1003 % 5) :=
  ⟨⟨by decide, by decide⟩, c1_split_purchase 1003 5 (by decide) (by decide)⟩

/-- C2: for every purchase date with a valid month and every closing/due day,
`calcular_vencimento_fatura` computes exactly the date the specification
describes (`vencimento_fatura_spec`); in particular the purchase of
2024-01-25 on a card closing on day 20 and due on day 5 falls due 2024-03-05. -/
theorem c2_calcular_vencimento (d : DateT) (c v : Nat)
    (hm1 : 1 ≤ d.mes) (hm12 : d.mes ≤ 12) :
    calcular_vencimento_fatura d c v = vencimento_fatura_spec d c v ∧
    calcular_vencimento_fatura ⟨2024, 1, 25⟩ 20 5 = ⟨2024, 3, 5⟩ := by
  refine ⟨?_, by decide⟩
  have hF1 : 1 ≤ (if d.dia ≤ c then (d.ano, d.mes)
      else if d.mes = 12 then (d.ano + 1, 1) else (d.ano, d.mes + 1)).2 := by
    by_cases h1 : d.dia ≤ c
    · simpa [h1] using hm1
    · by_cases h3 : d.mes = 12 <;> simp [h1, h3]
  have hF12 : (if d.dia ≤ c then (d.ano, d.mes)
      else if d.mes = 12 then (d.ano + 1, 1) else (d.ano, d.mes + 1)).2 ≤ 12 := by
    by_cases h1 : d.dia ≤ c
    · simpa [h1] using hm12
    · by_cases h3 : d.mes = 12
      · simp [h1, h3]
      · simp [h1, h3]; omega
  simp only [calcular_vencimento_fatura, vencimento_fatura_spec]
  rw [proximoMes_eq d.ano d.mes hm1 hm12]
  rw [proximoMes_eq _ _ hF1 hF12]

/-- Witness for C2 at the purchase date 2024-01-25 with closing day 20 and
due day 5. -/
theorem c2_calcular_vencimento_witness :
    (1 ≤ (DateT.mk 2024 1 25).mes ∧ (DateT.mk 2024 1 25).mes ≤ 12) ∧
    (calcular_vencimento_fatura ⟨2024, 1, 25⟩ 20 5 =
        vencimento_fatura_spec ⟨2024, 1, 25⟩ 20 5 ∧
      calcular_vencimento_fatura ⟨2024, 1, 25⟩ 20 5 = ⟨2024, 3, 5⟩) :=
  ⟨⟨by decide, by decide⟩, c2_calcular_vencimento ⟨2024, 1, 25⟩ 20 5 (by decide) (by decide)⟩

/-- A row of the `Conta` model (`core/models.py`), restricted to the fields
the invoice and subscription services read or write.  `valor` is in integer
cents (the model stores a 2-decimal fixed-point value); foreign keys are the
referenced row ids; `atualizadaEm` is an abstract audit counter standing for
the `auto_now` timestamp (bumped exactly when Django `save()` runs, and not
by queryset `update()`). -/
structure Conta where
  id : Nat
  usuario : Nat
  tipo : String
  descricao : String
  valor : Int
  dataPrevista : DateT
  transacaoRealizada : Bool
  dataRealizacao : Option DateT
  cartao : Option Nat
  categoriaCartao : Option Nat
  ehFaturaCartao : Bool
  fatura : Option Nat
  assinatura : Option Nat
  atualizadaEm : Nat
deriving DecidableEq, Repr

/-- A default row, used only as the `getD` fallback in statements. -/
def contaPadrao : Conta :=
  { id := 0, usuario := 0, tipo := "D", descricao := "", valor := 0,
    dataPrevista := ⟨1970, 1, 1⟩, transacaoRealizada := false,
    dataRealizacao := none, cartao := none, categoriaCartao := none,
    ehFaturaCartao := false, fatura := none, assinatura := none,
    atualizadaEm := 0 }

/-- The queryset `Conta.objects.filter(fatura=fatura, eh_fatura_cartao=False)`
used throughout `core/services/fatura_service.py`. -/
def filhos_da_fatura (db : List Conta) (faturaId : Nat) : List Conta :=
  db.filter (fun c => c.fatura == some faturaId && c.ehFaturaCartao == false)

/-- `aggregate(total=Sum("valor"))["total"] or Decimal("0.00")`: the sum of
the children's amounts, `0` when there are none. -/
def soma_filhos (db : List Conta) (faturaId : Nat) : Int :=
  ((filhos_da_fatura db faturaId).map Conta.valor).sum

/-- `atualizar_valor_fatura` from `core/services/fatura_service.py`: return
unchanged when the invoice is already paid, otherwise write the sum of the
children into the invoice row (`save(update_fields=["valor", "atualizada_em"])`). -/
def atualizar_valor_fatura (db : List Conta) (fatura : Conta) : List Conta :=
  if fatura.transacaoRealizada then db
  else
    let total := soma_filhos db fatura.id
    db.map (fun c =>
      if c.id = fatura.id then
        { c with valor := total, atualizadaEm := c.atualizadaEm + 1 }
      else c)

/-- `pagar_fatura` from `core/services/fatura_service.py`: mark the invoice
row realized on `dataPagamento` (a `save`, bumping the audit counter), and
every linked non-invoice child realized on the same date (a queryset
`update`, which leaves the audit counter alone). -/
def pagar_fatura (db : List Conta) (fatura : Conta) (dataPagamento : DateT) :
    List Conta :=
  db.map (fun c =>
    if c.id = fatura.id then
      { c with
        transacaoRealizada := true
        dataRealizacao := some dataPagamento
        atualizadaEm := c.atualizadaEm + 1 }
    else if c.fatura = some fatura.id ∧ c.ehFaturaCartao = false then
      { c with transacaoRealizada := true, dataRealizacao := some dataPagamento }
    else c)

/-- `desfazer_pagamento_fatura` from `core/services/fatura_service.py`:
unmark the invoice row and every linked non-invoice child. -/
def desfazer_pagamento_fatura (db : List Conta) (fatura : Conta) : List Conta :=
  db.map (fun c =>
    if c.id = fatura.id then
      { c with
        transacaoRealizada := false
        dataRealizacao := none
        atualizadaEm := c.atualizadaEm + 1 }
    else if c.fatura = some fatura.id ∧ c.ehFaturaCartao = false then
      { c with transacaoRealizada := false, dataRealizacao := none }
    else c)

/-- The rows touched by `pagar_fatura`/`desfazer_pagamento_fatura`: the
invoice row itself and its linked non-invoice children. -/
def toca_fatura (faturaId : Nat) (c : Conta) : Prop :=
  c.id = faturaId ∨ (c.fatura = some faturaId ∧ c.ehFaturaCartao = false)

theorem soma_filhos_map (g : Conta → Conta) (faturaId : Nat)
    (hg1 : ∀ c, (g c).fatura = c.fatura)
    (hg2 : ∀ c, (g c).ehFaturaCartao = c.ehFaturaCartao)
    (db : List Conta)
    (hval : ∀ c ∈ db, c.fatura = some faturaId → c.ehFaturaCartao = false →
      (g c).valor = c.valor) :
    soma_filhos (db.map g) faturaId = soma_filhos db faturaId := by
  unfold soma_filhos filhos_da_fatura
  rw [List.filter_map]
  have hpred : ((fun c => c.fatura == some faturaId && c.ehFaturaCartao == false) ∘ g) =
      (fun c => c.fatura == some faturaId && c.ehFaturaCartao == false) := by
    funext c; simp [Function.comp, hg1, hg2]
  rw [hpred, List.map_map]
  congr 1
  apply List.map_congr_left
  intro c hc
  have hmem := List.mem_filter.1 hc
  simp only [Bool.and_eq_true, beq_iff_eq] at hmem
  exact hval c hmem.1 hmem.2.1 hmem.2.2

/-- C3: recomputing an invoice total is a no-op when the invoice is paid;
otherwise it writes the sum of the current non-invoice children (0 with no
children) into the invoice row, and the children themselves keep their
amounts, so the recomputed invoice amount is the sum of the (post-mutation)
children's amounts.  `hso` says rows carrying the invoice's id are invoice
rows (id uniqueness across the self-reference). -/
theorem c3_atualizar_valor_fatura (db : List Conta) (f : Conta)
    (hso : ∀ c ∈ db, c.id = f.id → c.ehFaturaCartao = true) :
    (f.transacaoRealizada = true → atualizar_valor_fatura db f = db) ∧
    (f.transacaoRealizada = false →
      (∀ c ∈ atualizar_valor_fatura db f, c.id = f.id →
        c.valor = soma_filhos db f.id) ∧
      soma_filhos (atualizar_valor_fatura db f) f.id = soma_filhos db f.id) := by
  constructor
  · intro hr; simp [atualizar_valor_fatura, hr]
  · intro hr
    constructor
    · intro c hc hcid
      simp only [atualizar_valor_fatura, hr, Bool.false_eq_true, if_false,
        List.mem_map] at hc
      obtain ⟨a, ha, rfl⟩ := hc
      by_cases hid : a.id = f.id
      · simp [hid]
      · simp [hid] at hcid
    · simp only [atualizar_valor_fatura, hr, Bool.false_eq_true, if_false]
      apply soma_filhos_map
      · intro c; by_cases hid : c.id = f.id <;> simp [hid]
      · intro c; by_cases hid : c.id = f.id <;> simp [hid]
      · intro c hc h1 h2
        by_cases hid : c.id = f.id
        · exact absurd (hso c hc hid) (by simp [h2])
        · simp [hid]

/-- Witness for C3: a paid invoice is untouched and an unpaid invoice gets
the children's sum. -/
theorem c3_atualizar_valor_fatura_witness :
    (∀ c ∈ ([{ contaPadrao with id := 7, ehFaturaCartao := true },
        { contaPadrao with id := 8, valor := 250, fatura := some 7 }] : List Conta),
      c.id = ({ contaPadrao with id := 7, ehFaturaCartao := true } : Conta).id →
      c.ehFaturaCartao = true) ∧
    ((({ contaPadrao with id := 7, ehFaturaCartao := true } : Conta).transacaoRealizada = true →
      atualizar_valor_fatura
        [{ contaPadrao with id := 7, ehFaturaCartao := true },
          { contaPadrao with id := 8, valor := 250, fatura := some 7 }]
        { contaPadrao with id := 7, ehFaturaCartao := true } =
        [{ contaPadrao with id := 7, ehFaturaCartao := true },
          { contaPadrao with id := 8, valor := 250, fatura := some 7 }]) ∧
      (({ contaPadrao with id := 7, ehFaturaCartao := true } : Conta).transacaoRealizada = false →
        (∀ c ∈ atualizar_valor_fatura
            [{ contaPadrao with id := 7, ehFaturaCartao := true },
              { contaPadrao with id := 8, valor := 250, fatura := some 7 }]
            { contaPadrao with id := 7, ehFaturaCartao := true },
          c.id = ({ contaPadrao with id := 7, ehFaturaCartao := true } : Conta).id →
          c.valor = soma_filhos
            [{ contaPadrao with id := 7, ehFaturaCartao := true },
              { contaPadrao with id := 8, valor := 250, fatura := some 7 }]
            ({ contaPadrao with id := 7, ehFaturaCartao := true } : Conta).id) ∧
        soma_filhos
          (atualizar_valor_fatura
            [{ contaPadrao with id := 7, ehFaturaCartao := true },
              { contaPadrao with id := 8, valor := 250, fatura := some 7 }]
            { contaPadrao with id := 7, ehFaturaCartao := true })
          ({ contaPadrao with id := 7, ehFaturaCartao := true } : Conta).id =
          soma_filhos
            [{ contaPadrao with id := 7, ehFaturaCartao := true },
              { contaPadrao with id := 8, valor := 250, fatura := some 7 }]
            ({ contaPadrao with id := 7, ehFaturaCartao := true } : Conta).id)) :=
  ⟨by decide, c3_atualizar_valor_fatura _ _ (by decide)⟩

instance (faturaId : Nat) (c : Conta) : Decidable (toca_fatura faturaId c) := by
  unfold toca_fatura; exact inferInstance

theorem getD_map_lt (g : Conta → Conta) (db : List Conta) (k : Nat)
    (hk : k < db.length) :
    (db.map g).getD k contaPadrao = g (db.getD k contaPadrao) := by
  simp [List.getD_eq_getElem?_getD, List.getElem?_map, List.getElem?_eq_getElem, hk]

theorem getD_mem (db : List Conta) (k : Nat) (hk : k < db.length) :
    db.getD k contaPadrao ∈ db := by
  rw [List.getD_eq_getElem?_getD, List.getElem?_eq_getElem hk]
  exact List.getElem_mem hk

/-- Equality of two `Conta` rows on every field except `valor` and the
audit counter `atualizadaEm`. -/
def mesmo_exceto_valor (c c2 : Conta) : Prop :=
  c2.id = c.id ∧ c2.usuario = c.usuario ∧ c2.tipo = c.tipo ∧
  c2.descricao = c.descricao ∧ c2.dataPrevista = c.dataPrevista ∧
  c2.transacaoRealizada = c.transacaoRealizada ∧
  c2.dataRealizacao = c.dataRealizacao ∧ c2.cartao = c.cartao ∧
  c2.categoriaCartao = c.categoriaCartao ∧
  c2.ehFaturaCartao = c.ehFaturaCartao ∧ c2.fatura = c.fatura ∧
  c2.assinatura = c.assinatura

instance (c c2 : Conta) : Decidable (mesmo_exceto_valor c c2) := by
  unfold mesmo_exceto_valor; exact inferInstance

/-- C10: recomputing a non-realized invoice preserves the length of the
table, changes at most the `valor` and audit-timestamp fields of every row,
and leaves every row whose id is not the invoice's id entirely unchanged —
in particular the invoice's kind, description, due date, realized flag,
realized date and card link are untouched, and no child row is modified. -/
theorem c10_atualizar_frame (db : List Conta) (f : Conta)
    (hr : f.transacaoRealizada = false) :
    (atualizar_valor_fatura db f).length = db.length ∧
    ∀ k, k < db.length →
      mesmo_exceto_valor (db.getD k contaPadrao)
        ((atualizar_valor_fatura db f).getD k contaPadrao) ∧
      ((db.getD k contaPadrao).id ≠ f.id →
        (atualizar_valor_fatura db f).getD k contaPadrao = db.getD k contaPadrao) := by
  constructor
  · simp [atualizar_valor_fatura, hr]
  · intro k hk
    simp only [atualizar_valor_fatura, hr, Bool.false_eq_true, if_false]
    rw [getD_map_lt _ _ _ hk]
    set a := db.getD k contaPadrao with ha
    by_cases hid : a.id = f.id
    · rw [if_pos hid]
      unfold mesmo_exceto_valor
      exact ⟨by simp, fun h => absurd hid h⟩
    · rw [if_neg hid]
      unfold mesmo_exceto_valor
      exact ⟨by simp, fun _ => rfl⟩

/-- Example rows: an unpaid invoice (id 7) and one unrealized child
purchase (id 8) linked to it. -/
def fatura_exemplo : Conta :=
  { contaPadrao with id := 7, ehFaturaCartao := true, cartao := some 1 }

def despesa_exemplo : Conta :=
  { contaPadrao with id := 8, valor := 250, fatura := some 7, cartao := some 1 }

def db_exemplo : List Conta := [fatura_exemplo, despesa_exemplo]

/-- Witness for C10 on the two-row example table. -/
theorem c10_atualizar_frame_witness :
    fatura_exemplo.transacaoRealizada = false ∧
    ((atualizar_valor_fatura db_exemplo fatura_exemplo).length = db_exemplo.length ∧
      ∀ k, k < db_exemplo.length →
        mesmo_exceto_valor (db_exemplo.getD k contaPadrao)
          ((atualizar_valor_fatura db_exemplo fatura_exemplo).getD k contaPadrao) ∧
        ((db_exemplo.getD k contaPadrao).id ≠ fatura_exemplo.id →
          (atualizar_valor_fatura db_exemplo fatura_exemplo).getD k contaPadrao =
            db_exemplo.getD k contaPadrao)) :=
  ⟨by decide, c10_atualizar_frame db_exemplo fatura_exemplo (by decide)⟩

/-- C4: paying an invoice marks the invoice row and every linked non-invoice
child realized with the payment date; when the invoice and all its children
were unrealized (with no realization date) beforehand, undoing the payment
restores every row's realized flag and realization date to its pre-pay
state. -/
theorem c4_pagar_desfazer (db : List Conta) (f : Conta) (dia : DateT)
    (hpre : ∀ c ∈ db, toca_fatura f.id c →
      c.transacaoRealizada = false ∧ c.dataRealizacao = none) :
    (∀ c ∈ pagar_fatura db f dia, toca_fatura f.id c →
      c.transacaoRealizada = true ∧ c.dataRealizacao = some dia) ∧
    (desfazer_pagamento_fatura (pagar_fatura db f dia) f).length = db.length ∧
    (∀ k, k < db.length →
      ((desfazer_pagamento_fatura (pagar_fatura db f dia) f).getD k
          contaPadrao).transacaoRealizada =
        (db.getD k contaPadrao).transacaoRealizada ∧
      ((desfazer_pagamento_fatura (pagar_fatura db f dia) f).getD k
          contaPadrao).dataRealizacao =
        (db.getD k contaPadrao).dataRealizacao) := by
  refine ⟨?_, ?_, ?_⟩
  · intro c hc ht
    simp only [pagar_fatura, List.mem_map] at hc
    obtain ⟨a, ha, rfl⟩ := hc
    by_cases h1 : a.id = f.id
    · simp [h1]
    · by_cases h2 : a.fatura = some f.id ∧ a.ehFaturaCartao = false
      · simp [h1, h2]
      · rw [if_neg h1, if_neg h2] at ht
        exact absurd ht (by simp [toca_fatura, h1, h2])
  · simp [desfazer_pagamento_fatura, pagar_fatura]
  · intro k hk
    have hmem := getD_mem db k hk
    unfold desfazer_pagamento_fatura pagar_fatura
    rw [List.map_map, getD_map_lt _ _ _ hk]
    set a := db.getD k contaPadrao with ha
    by_cases h1 : a.id = f.id
    · have hp := hpre a hmem (Or.inl h1)
      simp [Function.comp, h1, hp.1, hp.2]
    · by_cases h2 : a.fatura = some f.id ∧ a.ehFaturaCartao = false
      · have hp := hpre a hmem (Or.inr h2)
        simp [Function.comp, h1, h2.1, h2.2, hp.1, hp.2]
      · rw [Decidable.not_and_iff_or_not] at h2
        simp only [Function.comp_apply]
        rcases h2 with h2 | h2 <;> simp [h1, h2]

/-- Witness for C4 on the two-row example table, paid on 2024-05-10. -/
theorem c4_pagar_desfazer_witness :
    (∀ c ∈ db_exemplo, toca_fatura fatura_exemplo.id c →
      c.transacaoRealizada = false ∧ c.dataRealizacao = none) ∧
    ((∀ c ∈ pagar_fatura db_exemplo fatura_exemplo ⟨2024, 5, 10⟩,
        toca_fatura fatura_exemplo.id c →
        c.transacaoRealizada = true ∧ c.dataRealizacao = some ⟨2024, 5, 10⟩) ∧
      (desfazer_pagamento_fatura
          (pagar_fatura db_exemplo fatura_exemplo ⟨2024, 5, 10⟩)
          fatura_exemplo).length = db_exemplo.length ∧
      (∀ k, k < db_exemplo.length →
        ((desfazer_pagamento_fatura
              (pagar_fatura db_exemplo fatura_exemplo ⟨2024, 5, 10⟩)
              fatura_exemplo).getD k contaPadrao).transacaoRealizada =
          (db_exemplo.getD k contaPadrao).transacaoRealizada ∧
        ((desfazer_pagamento_fatura
              (pagar_fatura db_exemplo fatura_exemplo ⟨2024, 5, 10⟩)
              fatura_exemplo).getD k contaPadrao).dataRealizacao =
          (db_exemplo.getD k contaPadrao).dataRealizacao)) :=
  ⟨by decide, c4_pagar_desfazer db_exemplo fatura_exemplo ⟨2024, 5, 10⟩ (by decide)⟩

/-- A row of the `Assinatura` model (`core/models.py`): a recurring
subscription with a due day of month and the date of the next automatic
generation. -/
structure Assinatura where
  id : Nat
  usuario : Nat
  tipo : String
  descricao : String
  valor : Int
  diaVencimento : Nat
  categoria : Option Nat
  formaPagamento : Option Nat
  ativa : Bool
  proximaGeracao : DateT
  atualizadaEm : Nat
deriving DecidableEq, Repr

/-- Python's `date.replace(day=novo)`: succeeds exactly when the new day
exists in the date's month, else raises `ValueError` (modelled as `none`). -/
def replaceDay (d : DateT) (novo : Nat) : Option DateT :=
  if 1 ≤ novo ∧ novo ≤ monthrange d.ano d.mes then some ⟨d.ano, d.mes, novo⟩ else none

/-- The due-date computation inside `gerar_conta_da_assinatura`
(`core/services/assinatura_service.py`): first try
`mes_referencia.replace(day=assinatura.dia_vencimento)`, and on `ValueError`
fall back to `mes_referencia.replace(day=min(dia_vencimento, 28))`. -/
def data_vencimento_assinatura (ref : DateT) (diaVencimento : Nat) : Option DateT :=
  match replaceDay ref diaVencimento with
  | some d => some d
  | none => replaceDay ref (min diaVencimento 28)

/-- `gerar_conta_da_assinatura` from `core/services/assinatura_service.py`:
pick the reference month (default: the subscription's `proxima_geracao`),
compute the due date, create one unrealized `Conta` linked to the
subscription, and advance `proxima_geracao` by one `relativedelta` month.
`none` models the uncaught `ValueError` when even the fallback day is
invalid. -/
def gerar_conta_da_assinatura (db : List Conta) (a : Assinatura)
    (mesReferencia : Option DateT) (novoId : Nat) :
    Option (List Conta × Assinatura) :=
  let ref := mesReferencia.getD a.proximaGeracao
  match data_vencimento_assinatura ref a.diaVencimento with
  | none => none
  | some dataVencimento =>
    let conta : Conta :=
      { id := novoId, usuario := a.usuario, tipo := a.tipo,
        descricao := a.descricao, valor := a.valor,
        dataPrevista := dataVencimento, transacaoRealizada := false,
        dataRealizacao := none, cartao := none, categoriaCartao := none,
        ehFaturaCartao := false, fatura := none, assinatura := some a.id,
        atualizadaEm := 0 }
    some (db ++ [conta],
      { a with
        proximaGeracao := add_months a.proximaGeracao 1
        atualizadaEm := a.atualizadaEm + 1 })

/-- The due-day rule exactly as the specification words it: the day is
replaced by `min(dia_vencimento, 28)`, falling back to the legal last day of
the month only when `dia_vencimento` itself is invalid for that month. -/
def data_vencimento_spec_assinatura (ref : DateT) (diaVencimento : Nat) : DateT :=
  if 1 ≤ diaVencimento ∧ diaVencimento ≤ monthrange ref.ano ref.mes then
    ⟨ref.ano, ref.mes, min diaVencimento 28⟩
  else
    ⟨ref.ano, ref.mes, monthrange ref.ano ref.mes⟩

theorem monthrange_ge_28 (ano mes : Nat) : 28 ≤ monthrange ano mes := by
  unfold monthrange
  split_ifs <;> omega

/-- A subscription due on day 31 whose next generation falls in January. -/
def assinatura_exemplo : Assinatura :=
  { id := 1, usuario := 0, tipo := "D", descricao := "Streaming", valor := 3990,
    diaVencimento := 31, categoria := none, formaPagamento := none,
    ativa := true, proximaGeracao := ⟨2024, 1, 15⟩, atualizadaEm := 0 }

/-- C5 counterexample: for a subscription due on day 31 generated for
January 2024 the code schedules the entry on 2024-01-31 (it tries the exact
due day first), while the claimed rule `min(due_day, 28)` yields
2024-01-28. -/
theorem c5_gerar_conta_counterexample :
    ((gerar_conta_da_assinatura [] assinatura_exemplo none 1).map
        (fun r => (r.1.getD 0 contaPadrao).dataPrevista)) = some ⟨2024, 1, 31⟩ ∧
    data_vencimento_spec_assinatura assinatura_exemplo.proximaGeracao
        assinatura_exemplo.diaVencimento = ⟨2024, 1, 28⟩ ∧
    (⟨2024, 1, 31⟩ : DateT) ≠ ⟨2024, 1, 28⟩ := by
  exact ⟨by decide, by decide, by decide⟩

/-- C5 as amended: the due date is the reference month (defaulting to the
subscription's next generation date) with the day replaced by the
subscription's due day itself when that day exists in the month, otherwise
by `min(due_day, 28)`; exactly one unrealized entry linked to the
subscription is created, and `proxima_geracao` advances by exactly one
calendar month. -/
theorem c5_gerar_conta_amended (db : List Conta) (a : Assinatura)
    (mesReferencia : Option DateT) (novoId : Nat)
    (hdv : 1 ≤ a.diaVencimento) :
    ∃ conta assinatura2,
      gerar_conta_da_assinatura db a mesReferencia novoId =
        some (db ++ [conta], assinatura2) ∧
      conta.transacaoRealizada = false ∧
      conta.dataRealizacao = none ∧
      conta.assinatura = some a.id ∧
      conta.valor = a.valor ∧
      conta.descricao = a.descricao ∧
      conta.dataPrevista =
        (if a.diaVencimento ≤
            monthrange (mesReferencia.getD a.proximaGeracao).ano
              (mesReferencia.getD a.proximaGeracao).mes then
          ⟨(mesReferencia.getD a.proximaGeracao).ano,
            (mesReferencia.getD a.proximaGeracao).mes, a.diaVencimento⟩
        else
          ⟨(mesReferencia.getD a.proximaGeracao).ano,
            (mesReferencia.getD a.proximaGeracao).mes,
            min a.diaVencimento 28⟩) ∧
      assinatura2 =
        { a with
          proximaGeracao := add_months a.proximaGeracao 1
          atualizadaEm := a.atualizadaEm + 1 } := by
  set ref := mesReferencia.getD a.proximaGeracao with href
  by_cases h : a.diaVencimento ≤ monthrange ref.ano ref.mes
  · have hdata : data_vencimento_assinatura ref a.diaVencimento =
        some ⟨ref.ano, ref.mes, a.diaVencimento⟩ := by
      unfold data_vencimento_assinatura replaceDay
      rw [if_pos ⟨hdv, h⟩]
    simp only [gerar_conta_da_assinatura]
    rw [← href, hdata]
    refine ⟨_, _, rfl, rfl, rfl, rfl, rfl, rfl, ?_, rfl⟩
    rw [if_pos h]
  · have hnone : replaceDay ref a.diaVencimento = none := by
      unfold replaceDay
      exact if_neg (fun hcon => h hcon.2)
    have hdata : data_vencimento_assinatura ref a.diaVencimento =
        some ⟨ref.ano, ref.mes, min a.diaVencimento 28⟩ := by
      unfold data_vencimento_assinatura
      rw [hnone]
      unfold replaceDay
      exact if_pos ⟨by omega,
        le_trans (Nat.min_le_right _ _) (monthrange_ge_28 _ _)⟩
    simp only [gerar_conta_da_assinatura]
    rw [← href, hdata]
    refine ⟨_, _, rfl, rfl, rfl, rfl, rfl, rfl, ?_, rfl⟩
    rw [if_neg h]

/-- Witness for the amended C5: the example subscription (due day 31,
January reference) yields the January 31 entry and advances generation to
February 15. -/
theorem c5_gerar_conta_amended_witness :
    1 ≤ assinatura_exemplo.diaVencimento ∧
    ∃ conta assinatura2,
      gerar_conta_da_assinatura [] assinatura_exemplo none 1 =
        some ([] ++ [conta], assinatura2) ∧
      conta.transacaoRealizada = false ∧
      conta.dataRealizacao = none ∧
      conta.assinatura = some assinatura_exemplo.id ∧
      conta.valor = assinatura_exemplo.valor ∧
      conta.descricao = assinatura_exemplo.descricao ∧
      conta.dataPrevista =
        (if assinatura_exemplo.diaVencimento ≤
            monthrange
              ((none : Option DateT).getD assinatura_exemplo.proximaGeracao).ano
              ((none : Option DateT).getD assinatura_exemplo.proximaGeracao).mes then
          ⟨((none : Option DateT).getD assinatura_exemplo.proximaGeracao).ano,
            ((none : Option DateT).getD assinatura_exemplo.proximaGeracao).mes,
            assinatura_exemplo.diaVencimento⟩
        else
          ⟨((none : Option DateT).getD assinatura_exemplo.proximaGeracao).ano,
            ((none : Option DateT).getD assinatura_exemplo.proximaGeracao).mes,
            min assinatura_exemplo.diaVencimento 28⟩) ∧
      assinatura2 =
        { assinatura_exemplo with
          proximaGeracao := add_months assinatura_exemplo.proximaGeracao 1
          atualizadaEm := assinatura_exemplo.atualizadaEm + 1 } :=
  ⟨by decide, c5_gerar_conta_amended [] assinatura_exemplo none 1 (by decide)⟩

/-- A transaction extracted from a bank-statement PDF line
(`core/services/extrato_parser.py`): date, description (truncated to 500
characters), absolute amount in cents, and kind `"D"` (debit) or `"C"`
(credit). -/
structure LinhaExtrato where
  data : DateT
  descricao : String
  valor : Nat
  tipo : String
deriving DecidableEq, Repr

/-- The regex-level reading of one text line of the PDF, abstracting
`re.search` and `datetime.strptime`: the date recognized by one of the date
patterns (if any), the monetary match parsed as (has leading minus sign,
absolute value in cents), and the line with the date and amount substrings
stripped and `" -|"` trimmed. -/
structure LinhaTexto where
  dataEncontrada : Option DateT
  valorEncontrado : Option (Bool × Nat)
  descricaoLimpa : String
deriving DecidableEq, Repr

/-- `_extrair_linha` from `core/services/extrato_parser.py`: skip the line
unless both a date and an amount were recognized, the absolute amount is
positive, and the stripped description is non-empty with at least 3
characters; otherwise keep date, the description truncated to 500
characters, the amount, and debit/credit from the sign. -/
def extrair_linha (l : LinhaTexto) : Option LinhaExtrato :=
  match l.dataEncontrada with
  | none => none
  | some data =>
    match l.valorEncontrado with
    | none => none
    | some (negativo, cents) =>
      if cents ≤ 0 then none
      else if l.descricaoLimpa = "" ∨ l.descricaoLimpa.length < 3 then none
      else some { data := data,
                  descricao := (l.descricaoLimpa.toList.take 500).asString,
                  valor := cents,
                  tipo := if negativo then "D" else "C" }

/-- `parse_pdf_generico` from `core/services/extrato_parser.py`, over the
already-extracted text lines of the document: collect the lines
`_extrair_linha` accepts, in order. -/
def parse_pdf_generico (linhas : List LinhaTexto) : List LinhaExtrato :=
  linhas.filterMap extrair_linha

/-- C9: a line with both a recognized date and a recognized amount is still
skipped when the parsed amount is not positive or the stripped description
is empty or shorter than 3 characters; consequently every transaction
returned by the generic parser has a strictly positive amount and a
non-empty description of at most 500 characters. -/
theorem c9_parse_generico (linhas : List LinhaTexto) :
    (∀ l : LinhaTexto, ∀ d negativo cents,
      l.dataEncontrada = some d → l.valorEncontrado = some (negativo, cents) →
      (cents ≤ 0 ∨ l.descricaoLimpa = "" ∨ l.descricaoLimpa.length < 3) →
      extrair_linha l = none) ∧
    (∀ t ∈ parse_pdf_generico linhas,
      0 < t.valor ∧ t.descricao ≠ "" ∧ t.descricao.length ≤ 500) := by
  constructor
  · intro l d negativo cents h1 h2 h3
    unfold extrair_linha
    rw [h1, h2]
    dsimp only
    by_cases hc : cents ≤ 0
    · rw [if_pos hc]
    · rw [if_neg hc, if_pos]
      rcases h3 with h3 | h3 | h3
      · exact absurd h3 hc
      · exact Or.inl h3
      · exact Or.inr h3
  · intro t ht
    obtain ⟨l, hl, he⟩ := List.mem_filterMap.1 ht
    unfold extrair_linha at he
    rcases hda : l.dataEncontrada with _ | d
    · rw [hda] at he; exact absurd he (by simp)
    rcases hva : l.valorEncontrado with _ | ⟨negativo, cents⟩
    · rw [hda, hva] at he; exact absurd he (by simp)
    rw [hda, hva] at he
    dsimp only at he
    by_cases hc : cents ≤ 0
    · rw [if_pos hc] at he; exact absurd he (by simp)
    by_cases hd : l.descricaoLimpa = "" ∨ l.descricaoLimpa.length < 3
    · rw [if_neg hc, if_pos hd] at he; exact absurd he (by simp)
    rw [if_neg hc, if_neg hd] at he
    obtain rfl := Option.some.inj he
    have hlen3 : 3 ≤ l.descricaoLimpa.length := by
      rcases Nat.lt_or_ge l.descricaoLimpa.length 3 with hlt | hge
      · exact absurd (Or.inr hlt) hd
      · exact hge
    have hlen3l : 3 ≤ l.descricaoLimpa.toList.length := hlen3
    refine ⟨by dsimp only; omega, ?_, ?_⟩
    · dsimp only
      intro hemp
      have hzero := congrArg String.length hemp
      rw [List.length_asString, List.length_take] at hzero
      simp only [String.length_empty] at hzero
      omega
    · dsimp only
      rw [List.length_asString, List.length_take]
      omega

/-- Witness for C9: a zero-amount line is skipped, and a well-formed line
yields a positive-amount transaction with a bounded description. -/
theorem c9_parse_generico_witness :
    ((⟨some ⟨2024, 1, 2⟩, some (false, 0), "PAGAMENTO CONTA"⟩ :
        LinhaTexto).dataEncontrada = some ⟨2024, 1, 2⟩ ∧
      (⟨some ⟨2024, 1, 2⟩, some (false, 0), "PAGAMENTO CONTA"⟩ :
        LinhaTexto).valorEncontrado = some (false, 0) ∧
      ((0 : Nat) ≤ 0 ∨
        (⟨some ⟨2024, 1, 2⟩, some (false, 0), "PAGAMENTO CONTA"⟩ :
          LinhaTexto).descricaoLimpa = "" ∨
        (⟨some ⟨2024, 1, 2⟩, some (false, 0), "PAGAMENTO CONTA"⟩ :
          LinhaTexto).descricaoLimpa.length < 3)) ∧
    extrair_linha ⟨some ⟨2024, 1, 2⟩, some (false, 0), "PAGAMENTO CONTA"⟩ = none ∧
    (∀ t ∈ parse_pdf_generico
        [⟨some ⟨2024, 1, 3⟩, some (true, 15075), "SUPERMERCADO XYZ"⟩],
      0 < t.valor ∧ t.descricao ≠ "" ∧ t.descricao.length ≤ 500) :=
  ⟨⟨by decide, by decide, by decide⟩,
    (c9_parse_generico []).1 _ ⟨2024, 1, 2⟩ false 0 (by decide) (by decide) (by decide),
    (c9_parse_generico
      [⟨some ⟨2024, 1, 3⟩, some (true, 15075), "SUPERMERCADO XYZ"⟩]).2⟩

/-- The cryptographic and serialization primitives `SecureBackupService`
delegates to (`core/services/secure_backup.py`): SHA-256 (`hashlib`),
PBKDF2-HMAC-SHA256 with 100000 iterations (`cryptography`), AES-GCM
encrypt/decrypt (decryption returns `none` on an authentication failure,
modelling the raised exception), and `json.dumps`/`json.loads` on the data
dictionary of type `α`.  Byte strings are lists of byte values. -/
structure PrimitivasCripto (α : Type) where
  sha256 : List Nat → List Nat
  kdf : String → List Nat → List Nat
  aeadEncrypt : List Nat → List Nat → List Nat → List Nat
  aeadDecrypt : List Nat → List Nat → List Nat → Option (List Nat)
  jsonDumps : α → List Nat
  jsonLoads : List Nat → Option α

/-- The two failure kinds of `SecureBackupService.decrypt_data`: the
distinct integrity error ("O arquivo foi VIOLADO.") and the generic
wrong-password-or-corruption error ("Senha incorreta ou arquivo
corrompido."). -/
inductive ErroDecrypt where
  | violado
  | senhaIncorreta
deriving DecidableEq, Repr

/-- `SecureBackupService.encrypt_data` (`core/services/secure_backup.py`):
`payload = salt || nonce || AESGCM(kdf(password, salt)).encrypt(nonce, json)`
prefixed with `SHA256(payload)`.  The random `salt` (16 bytes) and `nonce`
(12 bytes) from `os.urandom` are explicit arguments; the final base64
transport encoding, a bijection applied outermost and undone first by
`decrypt_data`, is omitted. -/
def encrypt_data {α : Type} (P : PrimitivasCripto α) (dataDict : α)
    (password : String) (salt nonce : List Nat) : List Nat :=
  let jsonData := P.jsonDumps dataDict
  let key := P.kdf password salt
  let ciphertext := P.aeadEncrypt key nonce jsonData
  let payload := salt ++ nonce ++ ciphertext
  let publicHash := P.sha256 payload
  publicHash ++ payload

/-- `SecureBackupService.decrypt_data` (`core/services/secure_backup.py`):
split off the leading 32-byte hash, fail with the distinct integrity error
on mismatch, then split salt (16) / nonce (12) / ciphertext, derive the key
from the supplied password, and collapse any AEAD or JSON failure into the
generic wrong-password-or-corruption error. -/
def decrypt_data {α : Type} (P : PrimitivasCripto α) (raw : List Nat)
    (password : String) : Except ErroDecrypt α :=
  let storedHash := raw.take 32
  let payload := raw.drop 32
  if P.sha256 payload ≠ storedHash then Except.error ErroDecrypt.violado
  else
    let salt := payload.take 16
    let nonce := (payload.drop 16).take 12
    let ciphertext := payload.drop 28
    let key := P.kdf password salt
    match P.aeadDecrypt key nonce ciphertext with
    | none => Except.error ErroDecrypt.senhaIncorreta
    | some plaintext =>
      match P.jsonLoads plaintext with
      | none => Except.error ErroDecrypt.senhaIncorreta
      | some d => Except.ok d

/-- C7: with primitives satisfying their contracts at the given input —
AES-GCM decryption undoes encryption under the same key and rejects under
the wrong password's key, and `json.loads` undoes `json.dumps` — decryption
with the right password returns the original data, and decryption with a
wrong password yields the generic wrong-password failure, never a
plaintext. -/
theorem c7_backup_roundtrip {α : Type} (P : PrimitivasCripto α) (d : α)
    (pw pw2 : String) (salt nonce : List Nat)
    (hsalt : salt.length = 16) (hnonce : nonce.length = 12)
    (hhash : (P.sha256 (salt ++ nonce ++
        P.aeadEncrypt (P.kdf pw salt) nonce (P.jsonDumps d))).length = 32)
    (hround : P.aeadDecrypt (P.kdf pw salt) nonce
        (P.aeadEncrypt (P.kdf pw salt) nonce (P.jsonDumps d)) =
      some (P.jsonDumps d))
    (hjson : P.jsonLoads (P.jsonDumps d) = some d)
    (hbad : P.aeadDecrypt (P.kdf pw2 salt) nonce
        (P.aeadEncrypt (P.kdf pw salt) nonce (P.jsonDumps d)) = none) :
    decrypt_data P (encrypt_data P d pw salt nonce) pw = Except.ok d ∧
    decrypt_data P (encrypt_data P d pw salt nonce) pw2 =
      Except.error ErroDecrypt.senhaIncorreta := by
  have hsn : (salt ++ nonce).length = 28 := by
    rw [List.length_append, hsalt, hnonce]
  have hTake16 : (salt ++ nonce ++
      P.aeadEncrypt (P.kdf pw salt) nonce (P.jsonDumps d)).take 16 = salt := by
    rw [List.append_assoc]; exact List.take_left' hsalt
  have hNonce : ((salt ++ nonce ++
      P.aeadEncrypt (P.kdf pw salt) nonce (P.jsonDumps d)).drop 16).take 12 =
      nonce := by
    rw [List.append_assoc, List.drop_left' hsalt]; exact List.take_left' hnonce
  have hDrop28 : (salt ++ nonce ++
      P.aeadEncrypt (P.kdf pw salt) nonce (P.jsonDumps d)).drop 28 =
      P.aeadEncrypt (P.kdf pw salt) nonce (P.jsonDumps d) :=
    List.drop_left' hsn
  constructor
  · simp only [encrypt_data, decrypt_data]
    rw [List.take_left' hhash, List.drop_left' hhash,
      if_neg (fun hne => hne rfl), hTake16, hNonce, hDrop28, hround]
    dsimp only
    rw [hjson]
  · simp only [encrypt_data, decrypt_data]
    rw [List.take_left' hhash, List.drop_left' hhash,
      if_neg (fun hne => hne rfl), hTake16, hNonce, hDrop28, hbad]

/-- A small executable instance of the primitives, used to witness the
round-trip theorem at a concrete input. -/
def primitivasTeste : PrimitivasCripto Nat :=
  { sha256 := fun payload => List.replicate 32 (payload.length % 256)
    kdf := fun password _salt => [password.length % 256]
    aeadEncrypt := fun key _nonce plaintext => key ++ plaintext
    aeadDecrypt := fun key _nonce ct =>
      if ct.take key.length = key then some (ct.drop key.length) else none
    jsonDumps := fun n => [n % 256]
    jsonLoads := fun bs => bs.head? }

def saltTeste : List Nat := List.replicate 16 0

def nonceTeste : List Nat := List.replicate 12 0

/-- Witness for C7 with the executable test primitives, data `7`, password
`"abc"` and wrong password `"wxyz"`. -/
theorem c7_backup_roundtrip_witness :
    (saltTeste.length = 16 ∧ nonceTeste.length = 12 ∧
      (primitivasTeste.sha256 (saltTeste ++ nonceTeste ++
        primitivasTeste.aeadEncrypt (primitivasTeste.kdf "abc" saltTeste)
          nonceTeste (primitivasTeste.jsonDumps 7))).length = 32 ∧
      primitivasTeste.aeadDecrypt (primitivasTeste.kdf "abc" saltTeste)
        nonceTeste (primitivasTeste.aeadEncrypt
          (primitivasTeste.kdf "abc" saltTeste) nonceTeste
          (primitivasTeste.jsonDumps 7)) =
        some (primitivasTeste.jsonDumps 7) ∧
      primitivasTeste.jsonLoads (primitivasTeste.jsonDumps 7) = some 7 ∧
      primitivasTeste.aeadDecrypt (primitivasTeste.kdf "wxyz" saltTeste)
        nonceTeste (primitivasTeste.aeadEncrypt
          (primitivasTeste.kdf "abc" saltTeste) nonceTeste
          (primitivasTeste.jsonDumps 7)) = none) ∧
    (decrypt_data primitivasTeste
        (encrypt_data primitivasTeste 7 "abc" saltTeste nonceTeste) "abc" =
      Except.ok 7 ∧
      decrypt_data primitivasTeste
        (encrypt_data primitivasTeste 7 "abc" saltTeste nonceTeste) "wxyz" =
      Except.error ErroDecrypt.senhaIncorreta) :=
  ⟨⟨by decide, by decide, by decide, by decide, by decide, by decide⟩,
    c7_backup_roundtrip primitivasTeste 7 "abc" "wxyz" saltTeste nonceTeste
      (by decide) (by decide) (by decide) (by decide) (by decide) (by decide)⟩

/-- A `LogImportacao` row (`core/models.py`): the success flag and message
of one import attempt. -/
structure LogImportacao where
  sucesso : Bool
  mensagem : String
deriving DecidableEq, Repr

/-- The database state the unified import router touches: the persisted
`LogImportacao` rows. -/
structure EstadoImport where
  logs : List LogImportacao
deriving DecidableEq, Repr

/-- `eh_backup_freecash` from `core/services/importar_unificado.py`: the
workbook's (lower-cased) sheet names contain the five fixed backup sheets. -/
def eh_backup_freecash (abas : List String) : Bool :=
  ["metadata", "contas", "categorias", "formas_pagamento", "configuracoes"].all
    (fun s => abas.contains s)

/-- A decimal digit, else `none`. -/
def charDigit (c : Char) : Option Nat :=
  if 48 ≤ c.toNat ∧ c.toNat ≤ 57 then some (c.toNat - 48) else none

def parse_ano_aux : List Char → Option Nat → Option Nat
  | [], acc => acc
  | c :: cs, acc =>
    match charDigit c with
    | none => none
    | some d => parse_ano_aux cs (some (acc.getD 0 * 10 + d))

/-- Python's `int(str(aba).strip())` on an already-stripped sheet name:
the numeric value when the name is all digits and non-empty, else `none`
(the raised `ValueError`). -/
def parse_ano (aba : String) : Option Nat :=
  parse_ano_aux aba.toList none

/-- `eh_planilha_legado` from `core/services/importar_unificado.py`: some
sheet name is an integer strictly between 1900 and 2100. -/
def eh_planilha_legado (abas : List String) : Bool :=
  abas.any (fun aba =>
    match parse_ano aba with
    | some ano => decide (1900 < ano) && decide (ano < 2100)
    | none => false)

/-- The `try`/`except` body of `importar_planilha_unificada`
(`core/services/importar_unificado.py`), with the two import branches
abstracted to their `LogImportacao` effect and return value: a recognized
file records a success log row and returns; an unrecognized file raises
`ValueError`, which the `except` clause handles by creating the failure log
row and re-raising.  The first component is the state as written inside the
transaction, the second the outcome. -/
def corpo_importar_unificada (st : EstadoImport) (abas : List String) :
    EstadoImport × Except String String :=
  if eh_backup_freecash abas then
    ({ logs := st.logs ++
        [⟨true, "Backup FreeCash importado (Upsert - Atualizado/Criado)."⟩] },
      Except.ok "backup_upsert")
  else if eh_planilha_legado abas then
    ({ logs := st.logs ++ [⟨true, "Planilha legado importada com sucesso."⟩] },
      Except.ok "legado")
  else
    ({ logs := st.logs ++
        [⟨false, "Arquivo não reconhecido: não parece ser backup FreeCash válido."⟩] },
      Except.error "Arquivo não reconhecido: não parece ser backup FreeCash válido.")

/-- `importar_planilha_unificada` is decorated with `@transaction.atomic`:
when the re-raised exception leaves the decorated function, the whole
transaction — including the failure `LogImportacao` row the `except` clause
just created — is rolled back, so the persisted state reverts to the
initial one; on success the transaction commits. -/
def importar_planilha_unificada (st : EstadoImport) (abas : List String) :
    EstadoImport × Except String String :=
  let resultado := corpo_importar_unificada st abas
  match resultado.2 with
  | Except.ok m => (resultado.1, Except.ok m)
  | Except.error e => (st, Except.error e)

instance {ε α : Type} [DecidableEq ε] [DecidableEq α] :
    DecidableEq (Except ε α) := fun x y =>
  match x, y with
  | Except.ok a, Except.ok b =>
    if h : a = b then Decidable.isTrue (h ▸ rfl)
    else Decidable.isFalse (fun hc => h (Except.ok.inj hc))
  | Except.ok _, Except.error _ =>
    Decidable.isFalse (fun hc => Except.noConfusion hc)
  | Except.error _, Except.ok _ =>
    Decidable.isFalse (fun hc => Except.noConfusion hc)
  | Except.error e, Except.error f =>
    if h : e = f then Decidable.isTrue (h ▸ rfl)
    else Decidable.isFalse (fun hc => h (Except.error.inj hc))

/-- C8: on an unrecognized file the `except` clause does create the
`sucesso = false` log row inside the transaction, but the re-raised
exception rolls the transaction back, so the persisted state after the
failed call holds no log row at all — the failure is not recorded, contrary
to the claim; the exception is re-raised, and a successful import does
persist a `sucesso = true` row. -/
theorem c8_importar_unificada_rollback :
    (corpo_importar_unificada ⟨[]⟩ ["planilha1"]).1.logs =
      [⟨false, "Arquivo não reconhecido: não parece ser backup FreeCash válido."⟩] ∧
    importar_planilha_unificada ⟨[]⟩ ["planilha1"] =
      (⟨[]⟩, Except.error
        "Arquivo não reconhecido: não parece ser backup FreeCash válido.") ∧
    (importar_planilha_unificada ⟨[]⟩
        ["metadata", "contas", "categorias", "formas_pagamento",
          "configuracoes"]).1.logs =
      [⟨true, "Backup FreeCash importado (Upsert - Atualizado/Criado)."⟩] := by
  exact ⟨by decide, by decide, by decide⟩

/-- The keyword-only parameter list of `upsert_conta_legado`
(`core/services/import_planilha.py`, line 207). -/
def upsert_conta_legado_parametros : List String :=
  ["usuario", "tipo", "descricao", "valor", "data_prevista",
   "transacao_realizada", "data_realizacao", "categoria", "forma_pagamento",
   "is_legacy", "origem_ano", "origem_mes", "origem_linha"]

/-- The keyword arguments both call sites inside
`importar_planilha_legado_padrao` pass to `upsert_conta_legado`
(`core/services/import_planilha.py`, lines 370 and 418). -/
def chamada_upsert_argumentos : List String :=
  ["created_by", "tipo", "descricao", "valor", "data_prevista",
   "transacao_realizada", "data_realizacao", "categoria", "forma_pagamento",
   "is_legacy", "origem_ano", "origem_mes", "origem_linha"]

/-- Python keyword binding for a function whose parameters are all
keyword-only without defaults: the call binds (does not raise `TypeError`)
exactly when every argument names a parameter and every parameter is
supplied. -/
def chamada_compativel (parametros argumentos : List String) : Bool :=
  argumentos.all (fun a => parametros.contains a) &&
  parametros.all (fun p => argumentos.contains p)

/-- C6: the legacy importer's calls to `upsert_conta_legado` do not bind —
they pass `created_by`, which is not a parameter, and omit the required
`usuario` — so every run of `importar_planilha_legado_padrao` on a workbook
with at least one importable cell raises `TypeError` before any dedupe
lookup, match or update can happen. -/
theorem c6_upsert_chamada_incompativel :
    chamada_compativel upsert_conta_legado_parametros chamada_upsert_argumentos =
      false ∧
    "created_by" ∉ upsert_conta_legado_parametros ∧
    "usuario" ∉ chamada_upsert_argumentos := by
  exact ⟨by decide, by decide, by decide⟩

end FreeCash
